import Mathlib

/-!
Verification of the Deribit options-data synchronization userscripts.

The repository ships two Tampermonkey userscripts that poll a published
CSV ledger of option levels and push the latest values into a TradingView
indicator:

* version 1.0, `tradingview_autoupdate.user.js` — pastes the whole
  non-header CSV content into a settings textarea (namespace `V1` below);
* version 2.0, embedded in `README.md` — parses the last CSV line into
  resistance/support numbers and writes them into labelled inputs
  (namespace `V2` below).

The embedding below translates the JavaScript of both scripts into pure
Lean functions.  DOM interaction is modelled by explicit page/dialog
structures plus effect logs (clicks, writes, status events); the fetch is
modelled by passing the transport outcome (`Except`) into the sync entry
point, which matches the single `await fetchData()` suspension point of
the source.  JavaScript numbers are modelled by `JSNum` (a rational or
NaN) with the strict-equality semantics of `===`, under which NaN is
unequal to everything including itself.
-/

/-- Prefix test on character lists: does the first list start with the second. -/
def strStartsWith : List Char → List Char → Bool
  | _, [] => true
  | [], _ :: _ => false
  | c :: cs, d :: ds => c == d && strStartsWith cs ds

/-- Substring occurrence test on character lists. -/
def listContainsSub : List Char → List Char → Bool
  | [], sub => strStartsWith [] sub
  | c :: cs, sub => strStartsWith (c :: cs) sub || listContainsSub cs sub

/-- Model of JavaScript `String.prototype.includes`. -/
def containsStr (s sub : String) : Bool := listContainsSub s.data sub.data

/-- Split a character list on a single separator character.  Both scripts
only ever split on one-character separators (newline and comma). -/
def splitChar (sep : Char) : List Char → List (List Char)
  | [] => [[]]
  | c :: cs =>
    let r := splitChar sep cs
    if c == sep then [] :: r
    else
      match r with
      | [] => [[c]]
      | h :: t => (c :: h) :: t

/-- Model of JavaScript `String.prototype.split` with a one-character separator. -/
def jsSplit (s : String) (sep : Char) : List String :=
  (splitChar sep s.data).map (fun cs => ⟨cs⟩)

/-- Whitespace characters stripped by `trim`. -/
def isWhite (c : Char) : Bool := c == ' ' || c == '\t' || c == '\n' || c == '\r'

/-- Model of JavaScript `String.prototype.trim`. -/
def jsTrim (s : String) : String :=
  ⟨((s.data.dropWhile isWhite).reverse.dropWhile isWhite).reverse⟩

/-- ASCII lower-casing of one character. -/
def lowerChar (c : Char) : Char :=
  if 'A' ≤ c && c ≤ 'Z' then Char.ofNat (c.toNat + 32) else c

/-- Model of JavaScript `String.prototype.toLowerCase` (ASCII fragment). -/
def lowerStr (s : String) : String := ⟨s.data.map lowerChar⟩

/-- Model of JavaScript `Array.prototype.join` with separator `\n`. -/
def joinLines : List String → String
  | [] => ""
  | [s] => s
  | s :: rest => s ++ "\n" ++ joinLines rest

/-- Numeric value of a list of decimal digit characters. -/
def natOfDigits (cs : List Char) : ℕ := cs.foldl (fun a c => a * 10 + (c.toNat - 48)) 0

/-- Model of a JavaScript number: a rational value or NaN. -/
inductive JSNum where
  | num (q : ℚ)
  | nan
deriving DecidableEq

/-- Strict equality `===` on JavaScript numbers: NaN is unequal to
everything, including itself. -/
def JSNum.strictEq : JSNum → JSNum → Bool
  | .num a, .num b => a == b
  | _, _ => false

/-- Model of JavaScript `parseFloat`: skip leading whitespace, optional
sign, integer digits, optional fractional digits; NaN when no digit was
consumed.  (Exponent notation is outside the fragment the ledger uses.) -/
def parseFloat (s : String) : JSNum :=
  let cs := s.data.dropWhile isWhite
  let sgncs : ℚ × List Char :=
    match cs with
    | '-' :: rest => (-1, rest)
    | '+' :: rest => (1, rest)
    | _ => (1, cs)
  let intPart := sgncs.2.takeWhile Char.isDigit
  let rest := sgncs.2.dropWhile Char.isDigit
  let fracPart : List Char :=
    match rest with
    | '.' :: r => r.takeWhile Char.isDigit
    | _ => []
  if intPart.isEmpty && fracPart.isEmpty then JSNum.nan
  else JSNum.num (sgncs.1 * ((natOfDigits intPart : ℚ) + (natOfDigits fracPart : ℚ) / (10 ^ fracPart.length)))

/-- Outcome of one `GM_xmlhttpRequest` load (the `onload` response). -/
structure Response where
  status : Nat
  responseText : String
deriving DecidableEq

/-- One report shown on the local status observer.  `hasTimestamp` records
whether the displayed text carries a wall-clock timestamp (v1.0's
`updateStatus` always appends one; v2.0's `setStatus` never does, while
its `updateStatusPanel` shows the current time in the text itself). -/
structure StatusEvent where
  text : String
  isError : Bool
  hasTimestamp : Bool
deriving DecidableEq

namespace V1

/-- Configuration block of the v1.0 script. -/
structure Config where
  csvUrl : String
  updateIntervalMs : Nat
  indicatorName : String
  showNotifications : Bool
  autoClickApply : Bool

/-- The literal `CONFIG` of `tradingview_autoupdate.user.js`. -/
def CONFIG : Config :=
  { csvUrl := "https://raw.githubusercontent.com/mabkkhome-lgtm/deribit-options-data/main/data/btc_levels.csv"
  , updateIntervalMs := 15 * 60 * 1000
  , indicatorName := "Options Levels Tracker"
  , showNotifications := true
  , autoClickApply := true }

/-- URL requested on a poll at time `now`: `CONFIG.csvUrl + '?t=' + Date.now()`. -/
def requestUrl (now : Nat) : String := CONFIG.csvUrl ++ "?t=" ++ toString now

/-- Model of v1.0 `fetchData`: on HTTP 200, drop the header line and
resolve the remaining lines re-joined with newlines; otherwise reject. -/
def fetchData (r : Response) : Except String String :=
  if r.status = 200 then
    .ok (joinLines ((jsSplit (jsTrim r.responseText) '\n').drop 1))
  else
    .error ("Failed to fetch: " ++ toString r.status)

/-- One legend entry (`[data-name="legend-source-item"]`): the text of its
title span, if any, and whether a settings-action button is present. -/
structure Legend where
  title : Option String
  hasSettingsBtn : Bool
deriving DecidableEq

/-- One entry of the fallback indicator list (`[class*="legendSourceItem"]`). -/
structure IndicatorItem where
  text : String
  hasButton : Bool
deriving DecidableEq

/-- One textarea of the settings dialog: the text content of its closest
cell (or parent) and its placeholder. -/
structure Textarea where
  parentText : String
  placeholder : String
deriving DecidableEq

/-- One button of the settings dialog. -/
structure Button where
  text : String
deriving DecidableEq

/-- The settings dialog, if one opened. -/
structure Dialog where
  textareas : List Textarea
  buttons : List Button
  hasSubmitBtn : Bool
deriving DecidableEq

/-- The host page as seen by the v1.0 script: legend entries, the fallback
indicator list, and the dialog that the settings click would reveal. -/
structure Page where
  legends : List Legend
  indicatorItems : List IndicatorItem
  dialog : Option Dialog
deriving DecidableEq

/-- A legend entry on which the first loop of `findIndicatorSettings`
clicks: its title span exists, contains the configured indicator name,
and a settings button is present. -/
def legendHit (cfg : Config) (l : Legend) : Bool :=
  (match l.title with
   | some t => containsStr t cfg.indicatorName
   | none => false) && l.hasSettingsBtn

/-- A fallback list entry on which the second loop clicks. -/
def itemHit (cfg : Config) (it : IndicatorItem) : Bool :=
  containsStr it.text cfg.indicatorName && it.hasButton

/-- Model of v1.0 `findIndicatorSettings`: returns whether a settings
button was clicked together with the list of clicked element names. -/
def findIndicatorSettings (cfg : Config) (p : Page) : Bool × List String :=
  match p.legends.find? (legendHit cfg) with
  | some _ => (true, ["legend-settings-action"])
  | none =>
    match p.indicatorItems.find? (itemHit cfg) with
    | some _ => (true, ["legend-item-button"])
    | none => (false, [])

/-- The label test of the textarea loop in `updateIndicatorInput`. -/
def taMatches (ta : Textarea) : Bool :=
  containsStr ta.parentText "PASTE DATA" || containsStr ta.parentText "data" ||
    containsStr ta.placeholder "data"

/-- Index of the textarea `updateIndicatorInput` writes to: the first one
whose label matches, else the first textarea of the dialog, else none. -/
def findTargetIdx (d : Dialog) : Option Nat :=
  match d.textareas.findIdx? taMatches with
  | some i => some i
  | none => if d.textareas.isEmpty then none else some 0

/-- Result of one v1.0 `updateIndicatorInput` run: the returned Bool, what
was written where, and which confirm control (if any) was clicked. -/
structure UpdResult where
  success : Bool
  wrote : Bool
  written : Option String
  targetIdx : Option Nat
  clickedOK : Bool
  clickedSubmit : Bool
deriving DecidableEq

/-- Model of v1.0 `updateIndicatorInput`.  Note the source's button loop
only ever clicks a button whose text includes "OK" (the Apply/Defaults
checks guard an inner OK test), and when `autoClickApply` is set but no
OK button and no submit button exists, control falls through to the final
`return true`. -/
def updateIndicatorInput (cfg : Config) (d? : Option Dialog) (data : String) : UpdResult :=
  match d? with
  | none => ⟨false, false, none, none, false, false⟩
  | some d =>
    match findTargetIdx d with
    | none => ⟨false, false, none, none, false, false⟩
    | some i =>
      if cfg.autoClickApply then
        match d.buttons.find? (fun b => containsStr b.text "OK") with
        | some _ => ⟨true, true, some data, some i, true, false⟩
        | none =>
          if d.hasSubmitBtn then ⟨true, true, some data, some i, false, true⟩
          else ⟨true, true, some data, some i, false, false⟩
      else ⟨true, true, some data, some i, false, false⟩

/-- Client state of the v1.0 script: the last applied CSV payload and the
reentrancy guard. -/
structure State where
  lastData : String
  isUpdating : Bool
deriving DecidableEq

/-- Observable outcome of one `fetchAndUpdate` invocation: the state on
exit, the status reports emitted (in order), whether and how the locate
step ran (`found`), the inner update attempt if reached, the elements
clicked by the locate step, whether a notification fired, and whether a
ledger fetch was performed. -/
structure Cycle where
  state : State
  statuses : List StatusEvent
  found : Option Bool
  upd : Option UpdResult
  clicks : List String
  notified : Bool
  fetched : Bool
deriving DecidableEq

/-- Model of v1.0 `fetchAndUpdate`.  The `fetch` argument is the outcome
of the awaited `fetchData()` call; an `Except.error` covers both a
rejected request and any exception thrown inside the `try` block at the
fetch.  Note `lastData = data` is assigned before the UI attempt. -/
def fetchAndUpdate (cfg : Config) (s : State) (fetch : Except String String) (p : Page) : Cycle :=
  if s.isUpdating then
    ⟨s, [], none, none, [], false, false⟩
  else
    match fetch with
    | .error msg =>
      ⟨{ s with isUpdating := false },
       [⟨"Updating...", false, true⟩, ⟨"Error: " ++ msg, true, true⟩],
       none, none, [], false, true⟩
    | .ok data =>
      if data == s.lastData then
        ⟨{ s with isUpdating := false },
         [⟨"Updating...", false, true⟩, ⟨"Options Levels: No changes", false, true⟩],
         none, none, [], false, true⟩
      else
        let fr := findIndicatorSettings cfg p
        if fr.1 then
          let u := updateIndicatorInput cfg p.dialog data
          if u.success then
            ⟨⟨data, false⟩,
             [⟨"Updating...", false, true⟩, ⟨"Options Levels: Updated ✓", false, true⟩],
             some true, some u, fr.2, cfg.showNotifications, true⟩
          else
            ⟨⟨data, false⟩,
             [⟨"Updating...", false, true⟩, ⟨"Update failed - manual paste needed", true, true⟩],
             some true, some u, fr.2, false, true⟩
        else
          ⟨⟨data, false⟩,
           [⟨"Updating...", false, true⟩, ⟨"Indicator not found on chart", true, true⟩],
           some false, none, fr.2, false, true⟩

/-- Whether a guard-passing v1.0 cycle ends in a failure outcome (transport
error, indicator not found, or dialog/textarea not found). -/
def outcomeFailed (cfg : Config) (s : State) (fetch : Except String String) (p : Page) : Bool :=
  match fetch with
  | .error _ => true
  | .ok data =>
    if data == s.lastData then false
    else if (findIndicatorSettings cfg p).1 then
      !(updateIndicatorInput cfg p.dialog data).success
    else true

end V1

namespace V2

/-- Configuration block of the v2.0 script. -/
structure Config where
  dataUrl : String
  updateIntervalMs : Nat
  indicatorName : String
  showNotifications : Bool

/-- The literal `CONFIG` of the v2.0 script. -/
def CONFIG : Config :=
  { dataUrl := "https://raw.githubusercontent.com/mabkkhome-lgtm/deribit-options-data/main/data/btc_levels.csv"
  , updateIntervalMs := 5 * 60 * 1000
  , indicatorName := "Options Levels"
  , showNotifications := true }

/-- URL requested on a poll at time `now`: `CONFIG.dataUrl + '?t=' + Date.now()`. -/
def requestUrl (now : Nat) : String := CONFIG.dataUrl ++ "?t=" ++ toString now

/-- The record the v2.0 client derives from the ledger. -/
structure Record where
  date : String
  resistance : JSNum
  support : JSNum
deriving DecidableEq

/-- Model of v2.0 `fetchData`: on HTTP 200, split into lines, take the
last line, split on commas, and resolve `parseFloat` of fields 1 and 2
whenever at least three fields are present — no numeric validation. -/
def fetchData (r : Response) : Except String Record :=
  if r.status = 200 then
    let lines := jsSplit (jsTrim r.responseText) '\n'
    if lines.length > 1 then
      let parts := jsSplit (lines.getLastD "") ','
      if parts.length ≥ 3 then
        .ok ⟨parts.getD 0 "", parseFloat (parts.getD 1 ""), parseFloat (parts.getD 2 "")⟩
      else .error "Invalid data format"
    else .error "No data"
  else .error ("HTTP " ++ toString r.status)

/-- One legend entry as seen by the v2.0 script. -/
structure LegendItem where
  title : Option String
  hasSettingsBtn : Bool
deriving DecidableEq

/-- One text/number input of the settings dialog and the text content of
its closest cell (its label row). -/
structure Input where
  label : String
deriving DecidableEq

/-- The settings dialog of the v2.0 script. -/
structure Dialog where
  inputs : List Input
  hasSubmitBtn : Bool
deriving DecidableEq

/-- The host page as seen by the v2.0 script. -/
structure Page where
  legendItems : List LegendItem
  dialog : Option Dialog
deriving DecidableEq

/-- Label test routing an input to the resistance value. -/
def inputIsRes (inp : Input) : Bool :=
  containsStr (lowerStr inp.label) "resistance" || containsStr (lowerStr inp.label) "high"

/-- Label test routing an input to the support value. -/
def inputIsSup (inp : Input) : Bool :=
  containsStr (lowerStr inp.label) "support" || containsStr (lowerStr inp.label) "low"

/-- The `setInputValue` writes performed inside an open dialog, as pairs
of input index and written value, in document order. -/
def fieldWrites (d : Dialog) (res sup : JSNum) : List (Nat × JSNum) :=
  d.inputs.enum.filterMap (fun pr =>
    if inputIsRes pr.2 then some (pr.1, res)
    else if inputIsSup pr.2 then some (pr.1, sup)
    else none)

/-- Effect log of one v2.0 `updateIndicatorSettings` run. -/
structure DriveOut where
  success : Bool
  clickedSettings : Nat
  writes : List (Nat × JSNum)
  clickedSubmit : Bool
deriving DecidableEq

/-- A legend item on which the v2.0 loop clicks the settings action: its
title span exists, its text includes (case-insensitively) the hardcoded
fragment "options", and a settings button is present.  (In the source an
item whose title matches but has no settings button falls through the
inner `if` and the loop continues, which is the same behaviour.) -/
def itemMatch (it : LegendItem) : Bool :=
  (match it.title with
   | some t => containsStr (lowerStr t) "options"
   | none => false) && it.hasSettingsBtn

/-- The legend-item loop of v2.0 `updateIndicatorSettings`: a matching
item gets its settings clicked; if the dialog then exists its fields are
written, and if the dialog has a submit button it is clicked and the run
returns true; in every other case the loop continues with the remaining
items. -/
def updateGo (d? : Option Dialog) (res sup : JSNum) : List LegendItem → DriveOut
  | [] => ⟨false, 0, [], false⟩
  | it :: rest =>
    if itemMatch it then
      match d? with
      | none =>
        let r := updateGo d? res sup rest
        ⟨r.success, r.clickedSettings + 1, r.writes, r.clickedSubmit⟩
      | some d =>
        if d.hasSubmitBtn then ⟨true, 1, fieldWrites d res sup, true⟩
        else
          let r := updateGo d? res sup rest
          ⟨r.success, r.clickedSettings + 1, fieldWrites d res sup ++ r.writes, r.clickedSubmit⟩
    else updateGo d? res sup rest

/-- Model of v2.0 `updateIndicatorSettings`. -/
def updateIndicatorSettings (p : Page) (res sup : JSNum) : DriveOut :=
  updateGo p.dialog res sup p.legendItems

/-- Client state of the v2.0 script. -/
structure State where
  resistance : JSNum
  support : JSNum
  lastUpdate : Option Nat
  isUpdating : Bool
deriving DecidableEq

/-- Observable outcome of one v2.0 `fetchAndUpdate` invocation. -/
structure Cycle where
  state : State
  statuses : List StatusEvent
  drive : Option DriveOut
  notified : Bool
  fetched : Bool
deriving DecidableEq

/-- Model of v2.0 `fetchAndUpdate`.  On a changed record the state is
assigned and the success-styled panel is rendered before the UI attempt;
a failed attempt emits no further status. -/
def fetchAndUpdate (cfg : Config) (s : State) (now : Nat) (fetch : Except String Record) (p : Page) : Cycle :=
  if s.isUpdating then
    ⟨s, [], none, false, false⟩
  else
    match fetch with
    | .error msg =>
      ⟨{ s with isUpdating := false },
       [⟨"Updating...", false, false⟩, ⟨"Error: " ++ msg, true, false⟩],
       none, false, true⟩
    | .ok data =>
      if !(JSNum.strictEq data.resistance s.resistance) || !(JSNum.strictEq data.support s.support) then
        let r := updateIndicatorSettings p data.resistance data.support
        ⟨{ resistance := data.resistance, support := data.support
         , lastUpdate := some now, isUpdating := false },
         [⟨"Updating...", false, false⟩, ⟨"Updated: " ++ toString now, false, true⟩],
         some r, cfg.showNotifications && r.success, true⟩
      else
        ⟨{ s with isUpdating := false },
         [⟨"Updating...", false, false⟩, ⟨"No changes", false, false⟩],
         none, false, true⟩

end V2

/-- Strict equality is reflexive exactly on non-NaN numbers. -/
theorem JSNum.strictEq_self (x : JSNum) (h : x ≠ JSNum.nan) : JSNum.strictEq x x = true := by
  cases x with
  | num q => simp [JSNum.strictEq]
  | nan => exact absurd rfl h

/-- C2 (confirmed): every invocation of `fetchAndUpdate` that begins with
the `isUpdating` guard false ends with the guard false again, on every
exit path — transport error, no-change, success, and every UI-propagation
failure path — in both script versions. -/
theorem claim2_guard_cleared :
    (∀ (s : V1.State) (fetch : Except String String) (p : V1.Page),
      s.isUpdating = false →
      (V1.fetchAndUpdate V1.CONFIG s fetch p).state.isUpdating = false) ∧
    (∀ (s : V2.State) (now : Nat) (fetch : Except String V2.Record) (p : V2.Page),
      s.isUpdating = false →
      (V2.fetchAndUpdate V2.CONFIG s now fetch p).state.isUpdating = false) := by
  constructor
  · intro s fetch p h
    unfold V1.fetchAndUpdate
    simp only [h, Bool.false_eq_true, if_false]
    rcases fetch with msg | data
    · rfl
    · dsimp only
      split
      · rfl
      · split
        · split <;> rfl
        · rfl
  · intro s now fetch p h
    unfold V2.fetchAndUpdate
    simp only [h, Bool.false_eq_true, if_false]
    rcases fetch with msg | data
    · rfl
    · dsimp only
      split <;> rfl

/-- C2 witness: the guard is cleared at concrete inputs in both versions. -/
theorem claim2_witness :
    (V1.fetchAndUpdate V1.CONFIG ⟨"", false⟩ (.error "net") ⟨[], [], none⟩).state.isUpdating = false ∧
    (V2.fetchAndUpdate V2.CONFIG ⟨.num 0, .num 0, none, false⟩ 7
      (.ok ⟨"d", .num 1, .num 2⟩) ⟨[], none⟩).state.isUpdating = false :=
  ⟨claim2_guard_cleared.1 ⟨"", false⟩ (.error "net") ⟨[], [], none⟩ rfl,
   claim2_guard_cleared.2 ⟨.num 0, .num 0, none, false⟩ 7 (.ok ⟨"d", .num 1, .num 2⟩) ⟨[], none⟩ rfl⟩

/-- C3 (confirmed): an invocation entered while the guard is true is a
no-op in both versions — no status output, no ledger fetch, no locate or
update attempt, no click, no notification, and the client state is
returned unchanged. -/
theorem claim3_guard_noop :
    (∀ (s : V1.State) (fetch : Except String String) (p : V1.Page),
      s.isUpdating = true →
      V1.fetchAndUpdate V1.CONFIG s fetch p = ⟨s, [], none, none, [], false, false⟩) ∧
    (∀ (s : V2.State) (now : Nat) (fetch : Except String V2.Record) (p : V2.Page),
      s.isUpdating = true →
      V2.fetchAndUpdate V2.CONFIG s now fetch p = ⟨s, [], none, false, false⟩) := by
  constructor
  · intro s fetch p h
    unfold V1.fetchAndUpdate
    simp [h]
  · intro s now fetch p h
    unfold V2.fetchAndUpdate
    simp [h]

/-- C3 witness: a concrete in-flight invocation is a no-op in both versions. -/
theorem claim3_witness :
    V1.fetchAndUpdate V1.CONFIG ⟨"x", true⟩ (.ok "y") ⟨[], [], none⟩ =
      ⟨⟨"x", true⟩, [], none, none, [], false, false⟩ ∧
    V2.fetchAndUpdate V2.CONFIG ⟨.num 3, .num 4, none, true⟩ 9
      (.ok ⟨"d", .num 1, .num 2⟩) ⟨[], none⟩ =
      ⟨⟨.num 3, .num 4, none, true⟩, [], none, false, false⟩ :=
  ⟨claim3_guard_noop.1 ⟨"x", true⟩ (.ok "y") ⟨[], [], none⟩ rfl,
   claim3_guard_noop.2 ⟨.num 3, .num 4, none, true⟩ 9 (.ok ⟨"d", .num 1, .num 2⟩) ⟨[], none⟩ rfl⟩

/-- C1 counterexample: a concrete v1.0 cycle whose UI propagation fails
(indicator not found on an empty page) nevertheless changes `lastData`
from `""` to the fetched record, contradicting the claim that the
last-applied state is left unchanged on failure. -/
theorem claim1_counterexample :
    (V1.fetchAndUpdate V1.CONFIG ⟨"", false⟩ (.ok "18/12/2024,98500,95200,99000,94500")
      ⟨[], [], none⟩).found = some false ∧
    (V1.fetchAndUpdate V1.CONFIG ⟨"", false⟩ (.ok "18/12/2024,98500,95200,99000,94500")
      ⟨[], [], none⟩).state.lastData = "18/12/2024,98500,95200,99000,94500" ∧
    "18/12/2024,98500,95200,99000,94500" ≠ "" := by
  refine ⟨rfl, rfl, ?_⟩
  decide

/-- C1 corrected: in both versions the last-applied state is assigned the
fetched record before the UI attempt, so a cycle whose UI propagation
fails still advances it; a following cycle fetching the identical record
then reports no change and does not retry the propagation. -/
theorem claim1_state_advances :
    (∀ (s : V1.State) (p : V1.Page) (data : String),
      s.isUpdating = false → (data == s.lastData) = false →
      (V1.findIndicatorSettings V1.CONFIG p).1 = false →
      (V1.fetchAndUpdate V1.CONFIG s (.ok data) p).state.lastData = data ∧
      (V1.fetchAndUpdate V1.CONFIG s (.ok data) p).found = some false ∧
      (∀ p2 : V1.Page,
        (V1.fetchAndUpdate V1.CONFIG (V1.fetchAndUpdate V1.CONFIG s (.ok data) p).state
          (.ok data) p2).statuses.getLast? = some ⟨"Options Levels: No changes", false, true⟩ ∧
        (V1.fetchAndUpdate V1.CONFIG (V1.fetchAndUpdate V1.CONFIG s (.ok data) p).state
          (.ok data) p2).found = none)) ∧
    (∀ (s : V2.State) (now : Nat) (rec : V2.Record) (p : V2.Page),
      s.isUpdating = false →
      rec.resistance ≠ JSNum.nan → rec.support ≠ JSNum.nan →
      (JSNum.strictEq rec.resistance s.resistance = false ∨
        JSNum.strictEq rec.support s.support = false) →
      (V2.updateIndicatorSettings p rec.resistance rec.support).success = false →
      (V2.fetchAndUpdate V2.CONFIG s now (.ok rec) p).state.resistance = rec.resistance ∧
      (V2.fetchAndUpdate V2.CONFIG s now (.ok rec) p).state.support = rec.support ∧
      (∀ (now2 : Nat) (p2 : V2.Page),
        (V2.fetchAndUpdate V2.CONFIG (V2.fetchAndUpdate V2.CONFIG s now (.ok rec) p).state
          now2 (.ok rec) p2).drive = none ∧
        (V2.fetchAndUpdate V2.CONFIG (V2.fetchAndUpdate V2.CONFIG s now (.ok rec) p).state
          now2 (.ok rec) p2).statuses.getLast? = some ⟨"No changes", false, false⟩)) := by
  constructor
  · intro s p data hs hneq hfind
    have hout :
        V1.fetchAndUpdate V1.CONFIG s (.ok data) p =
          ⟨⟨data, false⟩,
           [⟨"Updating...", false, true⟩, ⟨"Indicator not found on chart", true, true⟩],
           some false, none, (V1.findIndicatorSettings V1.CONFIG p).2, false, true⟩ := by
      unfold V1.fetchAndUpdate
      simp [hs, hneq, hfind]
    refine ⟨by rw [hout], by rw [hout], ?_⟩
    intro p2
    rw [hout]
    constructor
    · unfold V1.fetchAndUpdate
      simp
    · unfold V1.fetchAndUpdate
      simp
  · intro s now rec p hs hrn hsn hchanged hfail
    have hcond :
        (!(JSNum.strictEq rec.resistance s.resistance) ||
          !(JSNum.strictEq rec.support s.support)) = true := by
      rcases hchanged with h | h <;> simp [h]
    have hout :
        V2.fetchAndUpdate V2.CONFIG s now (.ok rec) p =
          ⟨⟨rec.resistance, rec.support, some now, false⟩,
           [⟨"Updating...", false, false⟩, ⟨"Updated: " ++ toString now, false, true⟩],
           some (V2.updateIndicatorSettings p rec.resistance rec.support),
           V2.CONFIG.showNotifications && (V2.updateIndicatorSettings p rec.resistance rec.support).success,
           true⟩ := by
      unfold V2.fetchAndUpdate
      simp [hs, hcond]
    refine ⟨by rw [hout], by rw [hout], ?_⟩
    intro now2 p2
    rw [hout]
    unfold V2.fetchAndUpdate
    simp [JSNum.strictEq_self rec.resistance hrn, JSNum.strictEq_self rec.support hsn]

/-- C1 witness: the corrected behaviour at concrete inputs — in v1.0 the
failed cycle leaves `lastData` equal to the fetched record, and in v2.0
the failed cycle stores the fetched resistance. -/
theorem claim1_witness :
    (V1.fetchAndUpdate V1.CONFIG ⟨"", false⟩ (.ok "a") ⟨[], [], none⟩).state.lastData = "a" ∧
    (V2.fetchAndUpdate V2.CONFIG ⟨.num 0, .num 0, none, false⟩ 0
      (.ok ⟨"d", .num 1, .num 2⟩) ⟨[], none⟩).state.resistance = .num 1 :=
  ⟨(claim1_state_advances.1 ⟨"", false⟩ ⟨[], [], none⟩ "a" rfl (by decide) rfl).1,
   (claim1_state_advances.2 ⟨.num 0, .num 0, none, false⟩ 0 ⟨"d", .num 1, .num 2⟩ ⟨[], none⟩
      rfl (by decide) (by decide) (Or.inl (by decide)) rfl).1⟩

/-- C4 counterexample: in v2.0, after a cycle applies the record of
18/12/2024, a later record of 19/12/2024 with identical resistance and
support differs from the last-applied record in its `date` field, yet the
cycle reports "No changes" and does not invoke the UI driver — change
detection is not field-by-field over the whole record. -/
theorem claim4_counterexample :
    (V2.fetchAndUpdate V2.CONFIG
      (V2.fetchAndUpdate V2.CONFIG ⟨.num 0, .num 0, none, false⟩ 0
        (.ok ⟨"18/12/2024", .num 98500, .num 95200⟩) ⟨[], none⟩).state 1
      (.ok ⟨"19/12/2024", .num 98500, .num 95200⟩) ⟨[], none⟩).drive = none ∧
    (V2.fetchAndUpdate V2.CONFIG
      (V2.fetchAndUpdate V2.CONFIG ⟨.num 0, .num 0, none, false⟩ 0
        (.ok ⟨"18/12/2024", .num 98500, .num 95200⟩) ⟨[], none⟩).state 1
      (.ok ⟨"19/12/2024", .num 98500, .num 95200⟩) ⟨[], none⟩).statuses.getLast? =
      some ⟨"No changes", false, false⟩ ∧
    (⟨"19/12/2024", .num 98500, .num 95200⟩ : V2.Record) ≠
      ⟨"18/12/2024", .num 98500, .num 95200⟩ := by
  refine ⟨?_, ?_, by decide⟩ <;> rfl

/-- C4 corrected: v2.0 change detection compares only the resistance and
support fields of the latest record against the stored state (the date is
neither stored nor compared): the driver is invoked iff one of the two
strictly differs, and when both are strictly equal the cycle reports
"No changes" and clears the guard without invoking the driver.  v1.0
compares the whole non-header file content as one string: its locate step
runs iff that string differs from `lastData`. -/
theorem claim4_change_detection :
    (∀ (s : V2.State) (now : Nat) (rec : V2.Record) (p : V2.Page),
      s.isUpdating = false →
      ((V2.fetchAndUpdate V2.CONFIG s now (.ok rec) p).drive.isSome =
        (!(JSNum.strictEq rec.resistance s.resistance) ||
          !(JSNum.strictEq rec.support s.support))) ∧
      (JSNum.strictEq rec.resistance s.resistance = true →
        JSNum.strictEq rec.support s.support = true →
        (V2.fetchAndUpdate V2.CONFIG s now (.ok rec) p).drive = none ∧
        (V2.fetchAndUpdate V2.CONFIG s now (.ok rec) p).statuses.getLast? =
          some ⟨"No changes", false, false⟩ ∧
        (V2.fetchAndUpdate V2.CONFIG s now (.ok rec) p).state =
          { s with isUpdating := false })) ∧
    (∀ (s : V1.State) (data : String) (p : V1.Page),
      s.isUpdating = false →
      (V1.fetchAndUpdate V1.CONFIG s (.ok data) p).found.isSome = !(data == s.lastData)) := by
  constructor
  · intro s now rec p hs
    constructor
    · unfold V2.fetchAndUpdate
      simp only [hs, Bool.false_eq_true, if_false]
      split
      · next hcond => simp [hcond]
      · next hcond => simp [Bool.not_eq_true] at hcond ⊢; simp [hcond]
    · intro hr hsup
      unfold V2.fetchAndUpdate
      simp [hs, hr, hsup]
  · intro s data p hs
    unfold V1.fetchAndUpdate
    simp only [hs, Bool.false_eq_true, if_false]
    rcases hbeq : (data == s.lastData) with _ | _
    · rw [if_neg (by simp [hbeq])]
      simp only [hbeq, Bool.not_false]
      split
      · split <;> rfl
      · rfl
    · simp [hbeq]

/-- C4 witness: at concrete inputs — an equal record yields no driver
invocation and "No changes", a changed record yields a driver invocation,
and a changed v1.0 payload reaches the locate step. -/
theorem claim4_witness :
    (V2.fetchAndUpdate V2.CONFIG ⟨.num 5, .num 6, none, false⟩ 3
      (.ok ⟨"d", .num 5, .num 6⟩) ⟨[], none⟩).drive = none ∧
    (V2.fetchAndUpdate V2.CONFIG ⟨.num 5, .num 6, none, false⟩ 3
      (.ok ⟨"d", .num 7, .num 6⟩) ⟨[], none⟩).drive.isSome = true ∧
    (V1.fetchAndUpdate V1.CONFIG ⟨"", false⟩ (.ok "row") ⟨[], [], none⟩).found.isSome = true := by
  refine ⟨((claim4_change_detection.1 ⟨.num 5, .num 6, none, false⟩ 3 ⟨"d", .num 5, .num 6⟩
      ⟨[], none⟩ rfl).2 (by decide) (by decide)).1, ?_, ?_⟩
  · rw [(claim4_change_detection.1 ⟨.num 5, .num 6, none, false⟩ 3 ⟨"d", .num 7, .num 6⟩
      ⟨[], none⟩ rfl).1]
    decide
  · rw [claim4_change_detection.2 ⟨"", false⟩ "row" ⟨[], [], none⟩ rfl]
    decide

/-- C5 counterexample: a concrete v1.0 attempt reaches the Commit step
(the labelled textarea was found and written) in a dialog with no OK
button and no submit button, yet the attempt returns success with no
confirm action clicked — no `CommitNotFoundError` is reported. -/
theorem claim5_counterexample :
    V1.updateIndicatorInput V1.CONFIG (some ⟨[⟨"PASTE DATA", ""⟩], [], false⟩) "x" =
      ⟨true, true, some "x", some 0, false, false⟩ := by
  decide

/-- C5 corrected: in v1.0 an attempt that locates a target textarea is
reported a success whether or not any confirm action was found (with
`autoClickApply` set, an OK button is clicked when present, else the
submit button, else nothing — success is returned in every case).  In
v2.0 an attempt whose open dialog has no submit button does not report
success for that legend item, but the failure is the generic false
return, not a distinct `CommitNotFoundError`. -/
theorem claim5_commit_reporting :
    (∀ (d : V1.Dialog) (data : String),
      V1.findTargetIdx d ≠ none →
      (V1.updateIndicatorInput V1.CONFIG (some d) data).success = true ∧
      (V1.updateIndicatorInput V1.CONFIG (some d) data).wrote = true) ∧
    (∀ (it : V2.LegendItem) (d : V2.Dialog) (res sup : JSNum),
      V2.itemMatch it = true → d.hasSubmitBtn = false →
      (V2.updateIndicatorSettings ⟨[it], some d⟩ res sup).success = false ∧
      (V2.updateIndicatorSettings ⟨[it], some d⟩ res sup).writes =
        V2.fieldWrites d res sup) := by
  constructor
  · intro d data hidx
    rcases h : V1.findTargetIdx d with _ | i
    · exact absurd h hidx
    · rcases hfind : d.buttons.find? (fun b => containsStr b.text "OK") with _ | b <;>
        rcases hsub : d.hasSubmitBtn with _ | _ <;>
          simp [V1.updateIndicatorInput, V1.CONFIG, h, hfind, hsub]
  · intro it d res sup hmatch hsub
    unfold V2.updateIndicatorSettings
    simp [V2.updateGo, hmatch, hsub]

/-- C5 witness: the corrected behaviour at concrete inputs — a v1.0
dialog containing only an OK-free button list still yields success, and a
v2.0 dialog without a submit button yields failure with the field writes
performed. -/
theorem claim5_witness :
    (V1.updateIndicatorInput V1.CONFIG (some ⟨[⟨"cell with data", "ph"⟩], [⟨"Cancel"⟩], false⟩)
      "z").success = true ∧
    (V2.updateIndicatorSettings ⟨[⟨some "Options Levels", true⟩],
      some ⟨[⟨"Resistance level"⟩], false⟩⟩ (.num 9) (.num 8)).success = false :=
  ⟨(claim5_commit_reporting.1 ⟨[⟨"cell with data", "ph"⟩], [⟨"Cancel"⟩], false⟩ "z"
      (by decide)).1,
   (claim5_commit_reporting.2 ⟨some "Options Levels", true⟩
      ⟨[⟨"Resistance level"⟩], false⟩ (.num 9) (.num 8) (by decide) rfl).1⟩

/-- C6 counterexample: a v2.0 object tree whose only label is
"Options Flow" — which does not contain the configured fragment
`CONFIG.indicatorName` = "Options Levels" — still gets its settings
action clicked, because the v2.0 locate step matches the hardcoded
fragment "options" rather than the configured name. -/
theorem claim6_counterexample :
    (V2.updateIndicatorSettings ⟨[⟨some "Options Flow", true⟩], none⟩
      (.num 1) (.num 2)).clickedSettings = 1 ∧
    containsStr "Options Flow" V2.CONFIG.indicatorName = false := by
  constructor
  · rfl
  · decide

/-- C6 corrected: the v1.0 locate step matches `CONFIG.indicatorName`
against legend titles and fallback item texts, and when no label contains
it the step returns not-found and clicks nothing.  The v2.0 locate step
instead matches the hardcoded case-insensitive fragment "options" (not
`CONFIG.indicatorName`); when no title contains that fragment it returns
not-found and clicks nothing. -/
theorem claim6_locate_fragment :
    (∀ p : V1.Page,
      (∀ l ∈ p.legends, ∀ t, l.title = some t →
        containsStr t V1.CONFIG.indicatorName = false) →
      (∀ it ∈ p.indicatorItems, containsStr it.text V1.CONFIG.indicatorName = false) →
      V1.findIndicatorSettings V1.CONFIG p = (false, [])) ∧
    (∀ (d? : Option V2.Dialog) (res sup : JSNum) (items : List V2.LegendItem),
      (∀ it ∈ items, ∀ t, it.title = some t →
        containsStr (lowerStr t) "options" = false) →
      V2.updateGo d? res sup items = ⟨false, 0, [], false⟩) := by
  constructor
  · intro p hleg hitem
    unfold V1.findIndicatorSettings
    have h1 : p.legends.find? (V1.legendHit V1.CONFIG) = none := by
      rw [List.find?_eq_none]
      intro l hl
      unfold V1.legendHit
      rcases ht : l.title with _ | t
      · simp
      · simp [hleg l hl t ht]
    have h2 : p.indicatorItems.find? (V1.itemHit V1.CONFIG) = none := by
      rw [List.find?_eq_none]
      intro it hit
      unfold V1.itemHit
      simp [hitem it hit]
    rw [h1, h2]
  · intro d? res sup items h
    induction items with
    | nil => rfl
    | cons it rest ih =>
      have hm : V2.itemMatch it = false := by
        unfold V2.itemMatch
        rcases ht : it.title with _ | t
        · simp
        · simp [h it (by simp) t ht]
      simp only [V2.updateGo, hm, Bool.false_eq_true, if_false]
      exact ih (fun x hx => h x (by simp [hx]))

/-- C6 witness: a concrete tree with no matching label in either version
yields not-found without clicks. -/
theorem claim6_witness :
    V1.findIndicatorSettings V1.CONFIG
      ⟨[⟨some "Volume", true⟩, ⟨none, true⟩], [⟨"RSI", true⟩], none⟩ = (false, []) ∧
    V2.updateGo none (.num 1) (.num 2) [⟨some "Volume", true⟩] = ⟨false, 0, [], false⟩ :=
  ⟨claim6_locate_fragment.1 ⟨[⟨some "Volume", true⟩, ⟨none, true⟩], [⟨"RSI", true⟩], none⟩
      (by decide) (by decide),
   claim6_locate_fragment.2 none (.num 1) (.num 2) [⟨some "Volume", true⟩] (by decide)⟩

/-- C7 counterexample: on a concrete two-record ledger, v1.0 `fetchData`
resolves the whole non-header content — both data lines joined — which is
not the last non-header line alone, so the v1.0 client does not derive
its current record from only the last non-header line. -/
theorem claim7_counterexample :
    V1.fetchData ⟨200, "date,high,low,bg,sg\n18/12/2024,98500,95200,99000,94500\n19/12/2024,99200,95800,99800,95000"⟩ =
      .ok "18/12/2024,98500,95200,99000,94500\n19/12/2024,99200,95800,99800,95000" ∧
    "18/12/2024,98500,95200,99000,94500\n19/12/2024,99200,95800,99800,95000" ≠
      "19/12/2024,99200,95800,99800,95000" := by
  refine ⟨rfl, ?_⟩
  decide

/-- C7 corrected: both clients fetch the ledger URL with a cache-defeating
query parameter appended (so the polled URL is never the bare ledger
URL), and the v2.0 client derives its record from only the last line of
the fetched content (non-header, since it requires more than one line):
two 200-responses with more than one line and the same last line yield
the same fetched record.  The v1.0 client instead resolves the entire
non-header content as its payload. -/
theorem claim7_current_record :
    (∀ n : Nat, V1.CONFIG.csvUrl.length < (V1.requestUrl n).length ∧
      V2.CONFIG.dataUrl.length < (V2.requestUrl n).length) ∧
    (∀ r r' : Response, r.status = 200 → r'.status = 200 →
      (jsSplit (jsTrim r.responseText) '\n').length > 1 →
      (jsSplit (jsTrim r'.responseText) '\n').length > 1 →
      (jsSplit (jsTrim r.responseText) '\n').getLastD "" =
        (jsSplit (jsTrim r'.responseText) '\n').getLastD "" →
      V2.fetchData r = V2.fetchData r') := by
  constructor
  · intro n
    constructor
    · unfold V1.requestUrl
      rw [String.length_append, String.length_append]
      have h3 : "?t=".length = 3 := rfl
      omega
    · unfold V2.requestUrl
      rw [String.length_append, String.length_append]
      have h3 : "?t=".length = 3 := rfl
      omega
  · intro r r' h200 h200' hlen hlen' hlast
    unfold V2.fetchData
    rw [if_pos h200, if_pos h200']
    simp only
    rw [hlast, if_pos hlen, if_pos hlen']

/-- C7 witness: the corrected behaviour at concrete inputs — the polled
URL is strictly longer than the bare ledger URL, and two responses that
agree on their last line (but not on earlier history) yield the same
v2.0 record. -/
theorem claim7_witness :
    V1.CONFIG.csvUrl.length < (V1.requestUrl 1700000000000).length ∧
    V2.fetchData ⟨200, "h\na,1,2\nb,3,4"⟩ = V2.fetchData ⟨200, "h\nzzz,9,9\nb,3,4"⟩ :=
  ⟨(claim7_current_record.1 1700000000000).1,
   claim7_current_record.2 ⟨200, "h\na,1,2\nb,3,4"⟩ ⟨200, "h\nzzz,9,9\nb,3,4"⟩ rfl rfl
     (by decide) (by decide) (by decide)⟩

/-- C8 counterexample: a concrete v2.0 cycle whose automation attempt
fails (empty page, so the driver returns failure) emits no error status
at all — its final status is the success-styled panel text — so a failed
UI propagation completes without a failure report, contradicting the
claim that every error kind is surfaced with a human-readable reason. -/
theorem claim8_counterexample :
    (V2.fetchAndUpdate V2.CONFIG ⟨.num 0, .num 0, none, false⟩ 5
      (.ok ⟨"d", .num 98500, .num 95200⟩) ⟨[], none⟩).drive =
      some ⟨false, 0, [], false⟩ ∧
    ∀ ev ∈ (V2.fetchAndUpdate V2.CONFIG ⟨.num 0, .num 0, none, false⟩ 5
      (.ok ⟨"d", .num 98500, .num 95200⟩) ⟨[], none⟩).statuses, ev.isError = false := by
  refine ⟨rfl, ?_⟩
  decide

/-- C8 corrected: in v1.0 every guard-passing cycle ends with a status
report whose text carries a timestamp and whose error flag equals whether
the outcome failed, so every outcome is surfaced.  In v2.0 a transport
error is surfaced (though `setStatus` attaches no timestamp), but a cycle
that detects a change renders only the success-styled panel before the
automation attempt and emits no error status even when the attempt
fails. -/
theorem claim8_status_surfacing :
    (∀ (s : V1.State) (fetch : Except String String) (p : V1.Page),
      s.isUpdating = false →
      (V1.fetchAndUpdate V1.CONFIG s fetch p).statuses ≠ [] ∧
      (∀ ev ∈ (V1.fetchAndUpdate V1.CONFIG s fetch p).statuses, ev.hasTimestamp = true) ∧
      (∃ ev, (V1.fetchAndUpdate V1.CONFIG s fetch p).statuses.getLast? = some ev ∧
        ev.isError = V1.outcomeFailed V1.CONFIG s fetch p)) ∧
    (∀ (s : V2.State) (now : Nat) (msg : String) (p : V2.Page),
      s.isUpdating = false →
      (V2.fetchAndUpdate V2.CONFIG s now (.error msg) p).statuses.getLast? =
        some ⟨"Error: " ++ msg, true, false⟩) ∧
    (∀ (s : V2.State) (now : Nat) (rec : V2.Record) (p : V2.Page),
      s.isUpdating = false →
      JSNum.strictEq rec.resistance s.resistance = false →
      (V2.fetchAndUpdate V2.CONFIG s now (.ok rec) p).drive =
        some (V2.updateIndicatorSettings p rec.resistance rec.support) ∧
      (∀ ev ∈ (V2.fetchAndUpdate V2.CONFIG s now (.ok rec) p).statuses,
        ev.isError = false)) := by
  refine ⟨?_, ?_, ?_⟩
  · intro s fetch p hs
    rcases fetch with msg | data
    · have hout : V1.fetchAndUpdate V1.CONFIG s (.error msg) p =
          ⟨{ s with isUpdating := false },
           [⟨"Updating...", false, true⟩, ⟨"Error: " ++ msg, true, true⟩],
           none, none, [], false, true⟩ := by
        unfold V1.fetchAndUpdate
        simp [hs]
      refine ⟨by rw [hout]; simp, ?_, ⟨"Error: " ++ msg, true, true⟩, by rw [hout]; rfl, rfl⟩
      rw [hout]
      intro ev hev
      simp only [List.mem_cons, List.not_mem_nil, or_false] at hev
      rcases hev with rfl | rfl <;> rfl
    · rcases hbeq : (data == s.lastData) with _ | _
      · rcases hfr : (V1.findIndicatorSettings V1.CONFIG p).1 with _ | _
        · have hout : V1.fetchAndUpdate V1.CONFIG s (.ok data) p =
              ⟨⟨data, false⟩,
               [⟨"Updating...", false, true⟩, ⟨"Indicator not found on chart", true, true⟩],
               some false, none, (V1.findIndicatorSettings V1.CONFIG p).2, false, true⟩ := by
            unfold V1.fetchAndUpdate
            simp [hs, hbeq, hfr]
          have hfail : V1.outcomeFailed V1.CONFIG s (.ok data) p = true := by
            unfold V1.outcomeFailed
            simp [hbeq, hfr]
          refine ⟨by rw [hout]; simp, ?_,
            ⟨"Indicator not found on chart", true, true⟩, by rw [hout]; rfl, by rw [hfail]⟩
          rw [hout]
          intro ev hev
          simp only [List.mem_cons, List.not_mem_nil, or_false] at hev
          rcases hev with rfl | rfl <;> rfl
        · rcases hu : (V1.updateIndicatorInput V1.CONFIG p.dialog data).success with _ | _
          · have hout : V1.fetchAndUpdate V1.CONFIG s (.ok data) p =
                ⟨⟨data, false⟩,
                 [⟨"Updating...", false, true⟩, ⟨"Update failed - manual paste needed", true, true⟩],
                 some true, some (V1.updateIndicatorInput V1.CONFIG p.dialog data),
                 (V1.findIndicatorSettings V1.CONFIG p).2, false, true⟩ := by
              unfold V1.fetchAndUpdate
              simp [hs, hbeq, hfr, hu]
            have hfail : V1.outcomeFailed V1.CONFIG s (.ok data) p = true := by
              unfold V1.outcomeFailed
              simp [hbeq, hfr, hu]
            refine ⟨by rw [hout]; simp, ?_,
              ⟨"Update failed - manual paste needed", true, true⟩, by rw [hout]; rfl, by rw [hfail]⟩
            rw [hout]
            intro ev hev
            simp only [List.mem_cons, List.not_mem_nil, or_false] at hev
            rcases hev with rfl | rfl <;> rfl
          · have hout : V1.fetchAndUpdate V1.CONFIG s (.ok data) p =
                ⟨⟨data, false⟩,
                 [⟨"Updating...", false, true⟩, ⟨"Options Levels: Updated ✓", false, true⟩],
                 some true, some (V1.updateIndicatorInput V1.CONFIG p.dialog data),
                 (V1.findIndicatorSettings V1.CONFIG p).2, V1.CONFIG.showNotifications, true⟩ := by
              unfold V1.fetchAndUpdate
              simp [hs, hbeq, hfr, hu]
            have hfail : V1.outcomeFailed V1.CONFIG s (.ok data) p = false := by
              unfold V1.outcomeFailed
              simp [hbeq, hfr, hu]
            refine ⟨by rw [hout]; simp, ?_,
              ⟨"Options Levels: Updated ✓", false, true⟩, by rw [hout]; rfl, by rw [hfail]⟩
            rw [hout]
            intro ev hev
            simp only [List.mem_cons, List.not_mem_nil, or_false] at hev
            rcases hev with rfl | rfl <;> rfl
      · have hout : V1.fetchAndUpdate V1.CONFIG s (.ok data) p =
            ⟨{ s with isUpdating := false },
             [⟨"Updating...", false, true⟩, ⟨"Options Levels: No changes", false, true⟩],
             none, none, [], false, true⟩ := by
          unfold V1.fetchAndUpdate
          simp [hs, hbeq]
        have hfail : V1.outcomeFailed V1.CONFIG s (.ok data) p = false := by
          unfold V1.outcomeFailed
          simp [hbeq]
        refine ⟨by rw [hout]; simp, ?_,
          ⟨"Options Levels: No changes", false, true⟩, by rw [hout]; rfl, by rw [hfail]⟩
        rw [hout]
        intro ev hev
        simp only [List.mem_cons, List.not_mem_nil, or_false] at hev
        rcases hev with rfl | rfl <;> rfl
  · intro s now msg p hs
    unfold V2.fetchAndUpdate
    simp [hs]
  · intro s now rec p hs hchanged
    have hcond :
        (!(JSNum.strictEq rec.resistance s.resistance) ||
          !(JSNum.strictEq rec.support s.support)) = true := by
      simp [hchanged]
    have hout : V2.fetchAndUpdate V2.CONFIG s now (.ok rec) p =
        ⟨⟨rec.resistance, rec.support, some now, false⟩,
         [⟨"Updating...", false, false⟩, ⟨"Updated: " ++ toString now, false, true⟩],
         some (V2.updateIndicatorSettings p rec.resistance rec.support),
         V2.CONFIG.showNotifications && (V2.updateIndicatorSettings p rec.resistance rec.support).success,
         true⟩ := by
      unfold V2.fetchAndUpdate
      simp [hs, hcond]
    refine ⟨by rw [hout], ?_⟩
    rw [hout]
    intro ev hev
    simp only [List.mem_cons, List.not_mem_nil, or_false] at hev
    rcases hev with rfl | rfl <;> rfl

/-- C8 witness: at concrete inputs — a v1.0 transport failure ends in a
timestamped error status, a v2.0 transport failure is surfaced, and a
changed v2.0 cycle over an empty page invokes the driver while emitting
no error status. -/
theorem claim8_witness :
    (∃ ev, (V1.fetchAndUpdate V1.CONFIG ⟨"", false⟩ (.error "net down")
      ⟨[], [], none⟩).statuses.getLast? = some ev ∧
      ev.isError = V1.outcomeFailed V1.CONFIG ⟨"", false⟩ (.error "net down") ⟨[], [], none⟩) ∧
    (V2.fetchAndUpdate V2.CONFIG ⟨.num 0, .num 0, none, false⟩ 2 (.error "HTTP 404")
      ⟨[], none⟩).statuses.getLast? = some ⟨"Error: HTTP 404", true, false⟩ ∧
    (V2.fetchAndUpdate V2.CONFIG ⟨.num 0, .num 0, none, false⟩ 2
      (.ok ⟨"d", .num 1, .num 2⟩) ⟨[], none⟩).drive =
      some (V2.updateIndicatorSettings ⟨[], none⟩ (.num 1) (.num 2)) :=
  ⟨(claim8_status_surfacing.1 ⟨"", false⟩ (.error "net down") ⟨[], [], none⟩ rfl).2.2,
   claim8_status_surfacing.2.1 ⟨.num 0, .num 0, none, false⟩ 2 "HTTP 404" ⟨[], none⟩ rfl,
   (claim8_status_surfacing.2.2 ⟨.num 0, .num 0, none, false⟩ 2 ⟨"d", .num 1, .num 2⟩
     ⟨[], none⟩ rfl (by decide)).1⟩

/-- C9 counterexample: a v2.0 dialog whose only input is labelled
"Volume" — matching none of the level names — receives no write at all:
there is no fall-back to the first input of the right affordance, so the
commit is triggered with zero fields applied. -/
theorem claim9_counterexample :
    (V2.updateIndicatorSettings ⟨[⟨some "Options Levels", true⟩],
      some ⟨[⟨"Volume"⟩], true⟩⟩ (.num 1) (.num 2)).writes = [] ∧
    (V2.updateIndicatorSettings ⟨[⟨some "Options Levels", true⟩],
      some ⟨[⟨"Volume"⟩], true⟩⟩ (.num 1) (.num 2)).success = true := by
  exact ⟨rfl, rfl⟩

/-- C9 corrected: the positional fallback exists only in v1.0, whose
single data textarea is resolved by label matching with a fall-back to
the dialog's first textarea when no label matches.  In v2.0 the
resistance/support fields are resolved by label matching only: an input
matching no level name is skipped (no positional fallback), each input
whose label matches is written individually, and the commit proceeds
with whatever fields matched (partial application). -/
theorem claim9_field_resolution :
    (∀ (d : V1.Dialog) (data : String) (ta : V1.Textarea) (rest : List V1.Textarea),
      d.textareas = ta :: rest →
      (∀ x ∈ d.textareas, V1.taMatches x = false) →
      V1.findTargetIdx d = some 0 ∧
      (V1.updateIndicatorInput V1.CONFIG (some d) data).wrote = true ∧
      (V1.updateIndicatorInput V1.CONFIG (some d) data).targetIdx = some 0) ∧
    (∀ (d : V2.Dialog) (res sup : JSNum),
      (∀ inp ∈ d.inputs, V2.inputIsRes inp = false ∧ V2.inputIsSup inp = false) →
      V2.fieldWrites d res sup = []) ∧
    (∀ (d : V2.Dialog) (res sup : JSNum) (i : Nat) (inp : V2.Input),
      (i, inp) ∈ d.inputs.enum → V2.inputIsRes inp = true →
      (i, res) ∈ V2.fieldWrites d res sup) ∧
    (∀ (it : V2.LegendItem) (d : V2.Dialog) (res sup : JSNum),
      V2.itemMatch it = true → d.hasSubmitBtn = true →
      (V2.updateIndicatorSettings ⟨[it], some d⟩ res sup).success = true ∧
      (V2.updateIndicatorSettings ⟨[it], some d⟩ res sup).clickedSubmit = true ∧
      (V2.updateIndicatorSettings ⟨[it], some d⟩ res sup).writes =
        V2.fieldWrites d res sup) := by
  refine ⟨?_, ?_, ?_, ?_⟩
  · intro d data ta rest htex hall
    have hidx : d.textareas.findIdx? V1.taMatches = none := by
      rw [List.findIdx?_eq_none_iff]
      intro x hx
      simp [hall x hx]
    have htarget : V1.findTargetIdx d = some 0 := by
      unfold V1.findTargetIdx
      rw [hidx]
      simp [htex]
    refine ⟨htarget, ?_⟩
    rcases hfind : d.buttons.find? (fun b => containsStr b.text "OK") with _ | b <;>
      rcases hsub : d.hasSubmitBtn with _ | _ <;>
        simp [V1.updateIndicatorInput, V1.CONFIG, htarget, hfind, hsub]
  · intro d res sup hall
    unfold V2.fieldWrites
    rw [List.filterMap_eq_nil_iff]
    intro a ha
    have h2 := List.mem_map_of_mem Prod.snd ha
    unfold List.enum at h2
    rw [List.enumFrom_map_snd] at h2
    simp [(hall a.2 h2).1, (hall a.2 h2).2]
  · intro d res sup i inp hmem hres
    unfold V2.fieldWrites
    rw [List.mem_filterMap]
    exact ⟨(i, inp), hmem, by simp [hres]⟩
  · intro it d res sup hmatch hsub
    unfold V2.updateIndicatorSettings
    simp [V2.updateGo, hmatch, hsub]

/-- C9 witness: the corrected behaviour at concrete inputs — a v1.0
dialog with one unlabelled textarea falls back to index 0, a v2.0 dialog
with one resistance-labelled and one unlabelled input writes exactly the
matching one, and the commit is clicked. -/
theorem claim9_witness :
    V1.findTargetIdx ⟨[⟨"misc", "ph"⟩], [], false⟩ = some 0 ∧
    V2.fieldWrites ⟨[⟨"Volume"⟩, ⟨"fee"⟩], true⟩ (.num 1) (.num 2) = [] ∧
    (1, JSNum.num 7) ∈ V2.fieldWrites ⟨[⟨"Volume"⟩, ⟨"Resistance"⟩], true⟩ (.num 7) (.num 8) ∧
    (V2.updateIndicatorSettings ⟨[⟨some "my options", true⟩],
      some ⟨[⟨"Resistance"⟩], true⟩⟩ (.num 7) (.num 8)).clickedSubmit = true :=
  ⟨(claim9_field_resolution.1 ⟨[⟨"misc", "ph"⟩], [], false⟩ "z" ⟨"misc", "ph"⟩ [] rfl
      (by decide)).1,
   claim9_field_resolution.2.1 ⟨[⟨"Volume"⟩, ⟨"fee"⟩], true⟩ (.num 1) (.num 2) (by decide),
   claim9_field_resolution.2.2.1 ⟨[⟨"Volume"⟩, ⟨"Resistance"⟩], true⟩ (.num 7) (.num 8) 1
     ⟨"Resistance"⟩ (by decide) (by decide),
   (claim9_field_resolution.2.2.2 ⟨some "my options", true⟩ ⟨[⟨"Resistance"⟩], true⟩
     (.num 7) (.num 8) (by decide) rfl).2.1⟩

/-- C10 (confirmed): v2.0 `fetchData` accepts any last line with at least
three comma-separated fields and resolves `parseFloat` of the raw fields
without numeric validation; NaN is strictly unequal to every value
(itself included), so a record whose resistance parsed to NaN is treated
as changed on every poll and the stored resistance is overwritten with
NaN. -/
theorem claim10_nan_churn :
    (∀ x : JSNum, JSNum.strictEq JSNum.nan x = false ∧ JSNum.strictEq x JSNum.nan = false) ∧
    (∀ r : Response, r.status = 200 →
      (jsSplit (jsTrim r.responseText) '\n').length > 1 →
      (jsSplit ((jsSplit (jsTrim r.responseText) '\n').getLastD "") ',').length ≥ 3 →
      V2.fetchData r = .ok
        ⟨(jsSplit ((jsSplit (jsTrim r.responseText) '\n').getLastD "") ',').getD 0 "",
         parseFloat ((jsSplit ((jsSplit (jsTrim r.responseText) '\n').getLastD "") ',').getD 1 ""),
         parseFloat ((jsSplit ((jsSplit (jsTrim r.responseText) '\n').getLastD "") ',').getD 2 "")⟩) ∧
    (∀ (s : V2.State) (now : Nat) (rec : V2.Record) (p : V2.Page),
      s.isUpdating = false → rec.resistance = JSNum.nan →
      (V2.fetchAndUpdate V2.CONFIG s now (.ok rec) p).drive.isSome = true ∧
      (V2.fetchAndUpdate V2.CONFIG s now (.ok rec) p).state.resistance = JSNum.nan) := by
  refine ⟨?_, ?_, ?_⟩
  · intro x
    cases x <;> exact ⟨rfl, rfl⟩
  · intro r h200 hlen hpar
    unfold V2.fetchData
    rw [if_pos h200]
    simp only
    rw [if_pos hlen, if_pos hpar]
  · intro s now rec p hs hres
    have hcond :
        (!(JSNum.strictEq rec.resistance s.resistance) ||
          !(JSNum.strictEq rec.support s.support)) = true := by
      rw [hres]
      have hnan : JSNum.strictEq JSNum.nan s.resistance = false := by
        cases s.resistance <;> rfl
      simp [hnan]
    have hout : V2.fetchAndUpdate V2.CONFIG s now (.ok rec) p =
        ⟨⟨rec.resistance, rec.support, some now, false⟩,
         [⟨"Updating...", false, false⟩, ⟨"Updated: " ++ toString now, false, true⟩],
         some (V2.updateIndicatorSettings p rec.resistance rec.support),
         V2.CONFIG.showNotifications && (V2.updateIndicatorSettings p rec.resistance rec.support).success,
         true⟩ := by
      unfold V2.fetchAndUpdate
      simp [hs, hcond]
    rw [hout]
    exact ⟨rfl, hres⟩

/-- C10 witness: the ledger line `19/12/2024,abc,95000` is accepted with
a NaN resistance, and from any state — including one already holding
NaN — the NaN record is treated as changed and NaN is stored again. -/
theorem claim10_witness :
    V2.fetchData ⟨200, "date,high,low\n19/12/2024,abc,95000"⟩ =
      .ok ⟨"19/12/2024", parseFloat "abc", parseFloat "95000"⟩ ∧
    parseFloat "abc" = JSNum.nan ∧
    (V2.fetchAndUpdate V2.CONFIG ⟨.num 98500, .num 95200, none, false⟩ 3
      (.ok ⟨"19/12/2024", JSNum.nan, .num 95000⟩) ⟨[], none⟩).state.resistance = JSNum.nan ∧
    (V2.fetchAndUpdate V2.CONFIG ⟨JSNum.nan, .num 95000, some 3, false⟩ 4
      (.ok ⟨"19/12/2024", JSNum.nan, .num 95000⟩) ⟨[], none⟩).drive.isSome = true :=
  ⟨(claim10_nan_churn.2.1 ⟨200, "date,high,low\n19/12/2024,abc,95000"⟩ rfl (by decide)
      (by decide)).trans rfl,
   by decide,
   (claim10_nan_churn.2.2 ⟨.num 98500, .num 95200, none, false⟩ 3
      ⟨"19/12/2024", JSNum.nan, .num 95000⟩ ⟨[], none⟩ rfl rfl).2,
   (claim10_nan_churn.2.2 ⟨JSNum.nan, .num 95000, some 3, false⟩ 4
      ⟨"19/12/2024", JSNum.nan, .num 95000⟩ ⟨[], none⟩ rfl rfl).1⟩
